import Mathlib

/-!
Verification of the journiv-app backend core: the weather-fetch pipeline
(`app/services/weather_service.py`, `app/api/v1/endpoints/weather.py`,
`app/schemas/weather.py`), the role-bootstrap migration
(`alembic/versions/abc123def456_add_user_role_column.py`), and the admin
invariant enforcer (modelled from the spec, its implementation being outside
the provided sources).

Numbers are modelled as rationals; Python `round` is round-half-to-even.
Python runtime values reachable in the weather payloads are modelled by
`PyVal`, and the exceptions the parsing code can raise by `PyExc`.
-/

/-- Model of a Python/JSON value as it appears in upstream weather payloads
and cache entries. Python booleans participate in arithmetic with values
0 and 1, which `pyToNum` reflects. -/
inductive PyVal where
  | none : PyVal
  | num (q : ℚ) : PyVal
  | str (s : String) : PyVal
  | bool (b : Bool) : PyVal
  | list (xs : List PyVal) : PyVal
  | dict (kvs : List (String × PyVal)) : PyVal

/-- Python `v is None`. -/
def PyVal.isNone : PyVal → Bool
  | .none => true
  | _ => false

/-- The Python exception classes distinguishable by the weather code's
`except (KeyError, ValueError, TypeError)` clause. Pydantic validation
failures derive from `ValueError`. -/
inductive PyExc where
  | keyError : PyExc
  | valueError : PyExc
  | typeError : PyExc
  | indexError : PyExc
  | attributeError : PyExc
deriving DecidableEq, Repr

instance {ε α : Type} [DecidableEq ε] [DecidableEq α] : DecidableEq (Except ε α) := fun a b =>
  match a, b with
  | .ok x, .ok y => decidable_of_iff (x = y) (by simp)
  | .error x, .error y => decidable_of_iff (x = y) (by simp)
  | .ok _, .error _ => isFalse (by simp)
  | .error _, .ok _ => isFalse (by simp)

/-- True for the exceptions caught by `_parse_openweather_response`:
`except (KeyError, ValueError, TypeError)`. -/
def PyExc.caughtByParse : PyExc → Bool
  | .keyError => true
  | .valueError => true
  | .typeError => true
  | .indexError => false
  | .attributeError => false

/-- Python `d.get(k, default)`: on a dict, the stored value when the key is
present (even if that value is `None`), the default otherwise; on any
non-dict receiver, `AttributeError`. -/
def pyGetD (v : PyVal) (k : String) (default : PyVal) : Except PyExc PyVal :=
  match v with
  | .dict kvs =>
    match kvs.find? (fun kv => kv.1 = k) with
    | some kv => .ok kv.2
    | Option.none => .ok default
  | _ => .error .attributeError

/-- Python `v[0]`: first element of a list (IndexError when empty), first
character of a string (IndexError when empty), `KeyError` on a dict whose
keys are strings, `TypeError` on non-subscriptable values. -/
def pyIndexZero (v : PyVal) : Except PyExc PyVal :=
  match v with
  | .list [] => .error .indexError
  | .list (x :: _) => .ok x
  | .str s => if s.isEmpty then .error .indexError else .ok (.str (s.take 1))
  | .dict _ => .error .keyError
  | _ => .error .typeError

/-- Numeric coercion used by Python arithmetic `temp_c * 9 / 5 + 32`:
numbers stand for themselves, booleans for 0/1, anything else raises
`TypeError` (for strings and lists the `* 9` succeeds as repetition but the
subsequent `/ 5` raises). -/
def pyToNum (v : PyVal) : Except PyExc ℚ :=
  match v with
  | .num q => .ok q
  | .bool b => .ok (if b then 1 else 0)
  | _ => .error .typeError

/-!
Rational arithmetic helpers. The standard `Rat` operations are
`@[irreducible]` in this toolchain, so the model uses `mkRat`-based
equivalents that the kernel can evaluate; each is proved equal to the
corresponding standard operation below.
-/

/-- Kernel-computable multiplication on ℚ. -/
def qMul (a b : ℚ) : ℚ := mkRat (a.num * b.num) (a.den * b.den)

/-- Kernel-computable addition on ℚ. -/
def qAdd (a b : ℚ) : ℚ := mkRat (a.num * b.den + b.num * a.den) (a.den * b.den)

/-- Kernel-computable subtraction on ℚ. -/
def qSub (a b : ℚ) : ℚ := mkRat (a.num * b.den - b.num * a.den) (a.den * b.den)

/-- Kernel-computable division of a rational by a natural number. -/
def qDivNat (a : ℚ) (c : ℕ) : ℚ := mkRat a.num (a.den * c)

/-- Kernel-computable multiplication of a rational by `10 ^ n`. -/
def qScale (q : ℚ) (n : ℕ) : ℚ := mkRat (q.num * 10 ^ n) q.den

/-- Round-half-to-even to an integer, as Python `round` does on exact
values. -/
def roundHalfEven (q : ℚ) : ℤ :=
  let f : ℤ := q.floor
  let frac : ℚ := qSub q (mkRat f 1)
  if frac < mkRat 1 2 then f
  else if mkRat 1 2 < frac then f + 1
  else if f % 2 = 0 then f else f + 1

/-- Python `round(q, n)` on an exact rational value. -/
def pyRound (q : ℚ) (n : ℕ) : ℚ :=
  mkRat (roundHalfEven (qScale q n)) (10 ^ n)

/-- The Fahrenheit conversion `(temp_c * 9 / 5) + 32` as the source
computes it. -/
def pyCtoF (t : ℚ) : ℚ := qAdd (qDivNat (qMul t 9) 5) 32


/-- The `WeatherData` pydantic model of `app/schemas/weather.py`:
temperatures in Celsius and Fahrenheit, a condition label, and optional
description, humidity, wind speed, pressure, visibility, icon. -/
structure WeatherData where
  temp_c : ℚ
  temp_f : ℚ
  condition : String
  description : Option String
  humidity : Option ℤ
  wind_speed : Option ℚ
  pressure : Option ℤ
  visibility : Option ℤ
  icon : Option String
deriving DecidableEq, Repr

/-- Pydantic validation of a required `float` field: accepts numbers,
rejects everything else. -/
def vFloat (v : PyVal) : Except PyExc ℚ :=
  match v with
  | .num q => .ok q
  | _ => .error .valueError

/-- Pydantic validation of a required `str` field. -/
def vStr (v : PyVal) : Except PyExc String :=
  match v with
  | .str s => .ok s
  | _ => .error .valueError

/-- Pydantic validation of an `Optional[str]` field. -/
def vOptStr (v : PyVal) : Except PyExc (Option String) :=
  match v with
  | .none => .ok Option.none
  | .str s => .ok (some s)
  | _ => .error .valueError

/-- Pydantic validation of an `Optional[int]` field: `None`, integers, and
integral floats pass; non-integral numbers and other values fail. -/
def vOptInt (v : PyVal) : Except PyExc (Option ℤ) :=
  match v with
  | .none => .ok Option.none
  | .num q => if q.den = 1 then .ok (some q.num) else .error .valueError
  | _ => .error .valueError

/-- Pydantic validation of `Optional[int]` with `ge`/`le` bounds
(the `humidity` field: `ge=0, le=100`). -/
def vOptIntRange (lo hi : ℤ) (v : PyVal) : Except PyExc (Option ℤ) :=
  match vOptInt v with
  | .ok Option.none => .ok Option.none
  | .ok (some n) => if lo ≤ n ∧ n ≤ hi then .ok (some n) else .error .valueError
  | .error e => .error e

/-- Pydantic validation of `Optional[float]` with `ge=0`
(the `wind_speed` field). -/
def vOptFloatGe0 (v : PyVal) : Except PyExc (Option ℚ) :=
  match v with
  | .none => .ok Option.none
  | .num q => if 0 ≤ q then .ok (some q) else .error .valueError
  | _ => .error .valueError

/-- Constructing `WeatherData(temp_c=..., ...)` with pydantic validation of
every field; a validation failure raises `ValidationError`, a subclass of
`ValueError`. -/
def mkWeatherData (temp_c temp_f cond desc hum ws pres vis icon : PyVal) :
    Except PyExc WeatherData := do
  let tc ← vFloat temp_c
  let tf ← vFloat temp_f
  let c ← vStr cond
  let d ← vOptStr desc
  let h ← vOptIntRange 0 100 hum
  let w ← vOptFloatGe0 ws
  let p ← vOptInt pres
  let v ← vOptInt vis
  let i ← vOptStr icon
  .ok ⟨tc, tf, c, d, h, w, p, v, i⟩

/-- The body of `WeatherService._parse_openweather_response` before its
`try/except`: extract `main`, `weather[0]`, `wind`, check `main.temp`,
convert to Fahrenheit, and build the `WeatherData`. `Option.none` models
the explicit `return None` on missing temperature. -/
def parseBody (data : PyVal) : Except PyExc (Option WeatherData) := do
  let main ← pyGetD data "main" (.dict [])
  let weatherList ← pyGetD data "weather" (.list [.dict []])
  let weather ← pyIndexZero weatherList
  let wind ← pyGetD data "wind" (.dict [])
  let temp_v ← pyGetD main "temp" .none
  if temp_v.isNone then
    pure Option.none
  else do
    let t ← pyToNum temp_v
    let temp_f := pyCtoF t
    let cond ← pyGetD weather "main" (.str "Unknown")
    let desc ← pyGetD weather "description" .none
    let hum ← pyGetD main "humidity" .none
    let ws ← pyGetD wind "speed" .none
    let pres ← pyGetD main "pressure" .none
    let vis ← pyGetD data "visibility" .none
    let icon ← pyGetD weather "icon" .none
    let w ← mkWeatherData (.num (pyRound t 1)) (.num (pyRound temp_f 1))
      cond desc hum ws pres vis icon
    pure (some w)

/-- `WeatherService._parse_openweather_response`: the body wrapped in
`try ... except (KeyError, ValueError, TypeError): return None`. Exceptions
outside that tuple (IndexError, AttributeError) propagate. -/
def parseOpenweatherResponse (data : PyVal) : Except PyExc (Option WeatherData) :=
  match parseBody data with
  | .ok r => .ok r
  | .error e => if e.caughtByParse then .ok Option.none else .error e

/-- Lookup in a Python dict literal, `None` when the key is absent. -/
def dGet (kvs : List (String × PyVal)) (k : String) : PyVal :=
  match kvs.find? (fun kv => kv.1 = k) with
  | some kv => kv.2
  | Option.none => .none

/-- Total variant of `d.get(k, default)` for use in theorem statements:
the default when the receiver is not a dict. -/
def jGet (v : PyVal) (k : String) (d : PyVal) : PyVal :=
  match v with
  | .dict kvs =>
    match kvs.find? (fun kv => kv.1 = k) with
    | some kv => kv.2
    | Option.none => d
  | _ => d

/-- The numeric reading of a `main.temp` entry: absent when the value is
`None`, its numeric value when Python arithmetic accepts it (numbers, and
booleans as 0/1). -/
def tempFrom (tv : PyVal) : Option ℚ :=
  if tv.isNone then Option.none
  else
    match pyToNum tv with
    | .ok q => some q
    | .error _ => Option.none

/-- The raw upstream Celsius temperature of a payload: defined exactly when
`main` is an object whose `temp` entry carries a usable numeric value. -/
def tempOf (data : PyVal) : Option ℚ :=
  match jGet data "main" (.dict []) with
  | .dict mkvs => tempFrom (jGet (.dict mkvs) "temp" .none)
  | _ => Option.none

/-- The payload lacks a temperature: `main.temp` absent or `null` (also
true when `main` itself is absent or not an object, in which case the
parse cannot produce a reading either). -/
def lacksTemp (data : PyVal) : Bool :=
  (jGet (jGet data "main" (.dict [])) "temp" .none).isNone

/-- The `weather` entry, when present, is a list whose head is an object
(the shape `data.get("weather", [{}])[0]` consumes without raising). -/
def weatherHeadOk (data : PyVal) : Bool :=
  match jGet data "weather" (.list [.dict []]) with
  | .list (.dict _ :: _) => true
  | _ => false

/-- The `wind` entry, when present, is an object. -/
def windShapeOk (data : PyVal) : Bool :=
  match jGet data "wind" (.dict []) with
  | .dict _ => true
  | _ => false

/-- Boolean success test on `Except`. -/
def exOk {α : Type} (e : Except PyExc α) : Bool :=
  match e with
  | .ok _ => true
  | .error _ => false

/-- The head of the `weather` list (defined under `weatherHeadOk`). -/
def weatherHead (data : PyVal) : PyVal :=
  match jGet data "weather" (.list [.dict []]) with
  | .list (x :: _) => x
  | _ => .dict []

/-- All optional field sources of a payload pass their pydantic
validators (each conjunct mentions exactly one field, so fields pass or
fail independently of one another). -/
def fieldsValid (data : PyVal) : Bool :=
  let main := jGet data "main" (.dict [])
  let weather := weatherHead data
  let wind := jGet data "wind" (.dict [])
  exOk (vStr (jGet weather "main" (.str "Unknown")))
    && exOk (vOptStr (jGet weather "description" .none))
    && exOk (vOptIntRange 0 100 (jGet main "humidity" .none))
    && exOk (vOptFloatGe0 (jGet wind "speed" .none))
    && exOk (vOptInt (jGet main "pressure" .none))
    && exOk (vOptInt (jGet data "visibility" .none))
    && exOk (vOptStr (jGet weather "icon" .none))

/-!
The scoped cache and the weather service's use of it.
-/

/-- Cache key of the weather service: the coordinate pair rounded to two
decimals (the source serializes it as the string `"lat,lon"`; the rounded
pair is the same information) together with the cache type `"weather"`. -/
abbrev CacheKey : Type := (ℚ × ℚ) × String

/-- A stored cache entry: an opaque structured payload and an absolute
expiry timestamp. -/
structure CacheEntry where
  value : PyVal
  expires_at : ℕ

/-- The cache content: at most one live entry per key (an association
list whose writes replace prior entries). -/
abbrev Cache : Type := List (CacheKey × CacheEntry)

/-- Modelled from the spec: `ScopedCache.get` (the class in
`app/core/scoped_cache.py` is outside the provided sources). Returns the
stored value only if an entry exists for the exact key and its expiry has
not passed; otherwise absent. -/
def cacheGet (c : Cache) (now : ℕ) (k : CacheKey) : Option PyVal :=
  match c.find? (fun kv => kv.1 = k) with
  | some kv => if now ≤ kv.2.expires_at then some kv.2.value else Option.none
  | Option.none => Option.none

/-- Modelled from the spec: `ScopedCache.set` stores or replaces the entry
under the key, computing `expires_at = now + ttl_seconds`. -/
def cacheSet (c : Cache) (now : ℕ) (k : CacheKey) (v : PyVal) (ttl : ℕ) : Cache :=
  (k, ⟨v, now + ttl⟩) :: c.filter (fun kv => ¬(kv.1 = k))

/-- `CACHE_TTL_SECONDS = 30 * 60` of `weather_service.py`. -/
def CACHE_TTL_SECONDS : ℕ := 30 * 60

/-- `WeatherService._get_cache_key`: round each coordinate to 2 decimal
places and pair with cache type `"weather"`. -/
def getCacheKey (lat lon : ℚ) : CacheKey :=
  ((pyRound lat 2, pyRound lon 2), "weather")

/-- Serialization of an optional string field by `model_dump`. -/
def optStrVal : Option String → PyVal
  | Option.none => .none
  | some s => .str s

/-- Serialization of an optional integer field by `model_dump`. -/
def optIntVal : Option ℤ → PyVal
  | Option.none => .none
  | some n => .num (mkRat n 1)

/-- Serialization of an optional float field by `model_dump`. -/
def optNumVal : Option ℚ → PyVal
  | Option.none => .none
  | some q => .num q

/-- `WeatherData.model_dump()`: the field-by-field dict serialization. -/
def modelDump (w : WeatherData) : PyVal :=
  .dict [("temp_c", .num w.temp_c), ("temp_f", .num w.temp_f),
    ("condition", .str w.condition), ("description", optStrVal w.description),
    ("humidity", optIntVal w.humidity), ("wind_speed", optNumVal w.wind_speed),
    ("pressure", optIntVal w.pressure), ("visibility", optIntVal w.visibility),
    ("icon", optStrVal w.icon)]

/-- `WeatherData(**result_data)`: pydantic reconstruction from a dict, with
every field validated; a non-mapping argument raises `TypeError`, a failed
validation raises `ValidationError` (a `ValueError`). -/
def weatherDataOfDict : PyVal → Except PyExc WeatherData
  | .dict kvs => do
    let tc ← vFloat (dGet kvs "temp_c")
    let tf ← vFloat (dGet kvs "temp_f")
    let c ← vStr (dGet kvs "condition")
    let d ← vOptStr (dGet kvs "description")
    let h ← vOptIntRange 0 100 (dGet kvs "humidity")
    let ws ← vOptFloatGe0 (dGet kvs "wind_speed")
    let p ← vOptInt (dGet kvs "pressure")
    let vis ← vOptInt (dGet kvs "visibility")
    let i ← vOptStr (dGet kvs "icon")
    .ok ⟨tc, tf, c, d, h, ws, p, vis, i⟩
  | _ => .error .typeError

/-- `WeatherService._get_from_cache`: look the rounded key up, unwrap the
`"result"` field (`None` or absent means miss), reconstruct the
`WeatherData`; the whole body is wrapped in `except Exception: return None`,
so every failure degrades to a miss. -/
def getFromCache (c : Cache) (now : ℕ) (lat lon : ℚ) : Option WeatherData :=
  match cacheGet c now (getCacheKey lat lon) with
  | Option.none => Option.none
  | some cached =>
    match pyGetD cached "result" .none with
    | .error _ => Option.none
    | .ok PyVal.none => Option.none
    | .ok r =>
      match weatherDataOfDict r with
      | .ok w => some w
      | .error _ => Option.none

/-- `WeatherService._save_to_cache`: store `{"result": model_dump()}` under
the rounded key with the 30-minute TTL. -/
def saveToCache (c : Cache) (now : ℕ) (lat lon : ℚ) (w : WeatherData) : Cache :=
  cacheSet c now (getCacheKey lat lon) (.dict [("result", modelDump w)]) CACHE_TTL_SECONDS

/-- The upstream interaction available to one `fetch_weather` call: a 2xx
response whose JSON body is `body`, an HTTP error status (for which
`raise_for_status` raises `httpx.HTTPStatusError`), or a network-level
failure (`httpx.HTTPError`: timeout, connection error). -/
inductive Upstream where
  | success (body : PyVal) : Upstream
  | httpStatus (code : ℕ) (text : String) : Upstream
  | transport : Upstream

/-- The failure modes `fetch_weather` can raise. The first four are
`ValueError`s in the source; `httpStatusErr` and `transportErr` are the
re-raised `httpx` exceptions; `pyErr` is an uncaught Python exception
escaping the parse. -/
inductive FetchErr where
  | invalidLatitude : FetchErr
  | invalidLongitude : FetchErr
  | notConfigured : FetchErr
  | invalidApiKey : FetchErr
  | httpStatusErr (code : ℕ) (text : String) : FetchErr
  | transportErr : FetchErr
  | pyErr (e : PyExc) : FetchErr
deriving DecidableEq, Repr

/-- Outcome of one `fetch_weather` call: the returned value or raised
error, the cache state afterwards, and how many upstream HTTP requests were
issued. -/
structure FetchResult where
  result : Except FetchErr (Option WeatherData)
  cache : Cache
  httpCalls : ℕ

/-- Python `str.strip()`: drop leading and trailing whitespace
(kernel-computable equivalent of `String.trim`). -/
def pyStrip (s : String) : String :=
  ⟨((s.data.dropWhile Char.isWhitespace).reverse.dropWhile Char.isWhitespace).reverse⟩

/-- `WeatherService.is_enabled`: a non-empty (after stripping) API key is
configured. -/
def isEnabled (apiKey : String) : Bool := !(pyStrip apiKey = "")

/-- `WeatherService.fetch_weather`: validate coordinates, validate the API
key, probe the cache, otherwise issue one upstream request, map error
statuses, parse, and cache a successful parse. -/
def fetchWeather (apiKey : String) (c : Cache) (now : ℕ) (lat lon : ℚ)
    (up : Upstream) : FetchResult :=
  if ¬(-90 ≤ lat ∧ lat ≤ 90) then ⟨.error .invalidLatitude, c, 0⟩
  else if ¬(-180 ≤ lon ∧ lon ≤ 180) then ⟨.error .invalidLongitude, c, 0⟩
  else if pyStrip apiKey = "" then ⟨.error .notConfigured, c, 0⟩
  else
    match getFromCache c now lat lon with
    | some w => ⟨.ok (some w), c, 0⟩
    | Option.none =>
      match up with
      | .transport => ⟨.error .transportErr, c, 1⟩
      | .httpStatus code text =>
        if code = 401 then ⟨.error .invalidApiKey, c, 1⟩
        else ⟨.error (.httpStatusErr code text), c, 1⟩
      | .success body =>
        match parseOpenweatherResponse body with
        | .error e => ⟨.error (.pyErr e), c, 1⟩
        | .ok Option.none => ⟨.ok Option.none, c, 1⟩
        | .ok (some w) => ⟨.ok (some w), saveToCache c now lat lon w, 1⟩

/-- The responses of the `/weather/fetch` endpoint, abstracted: a 200
success payload, a 200 disabled-indicator payload, or a raised
`HTTPException`. -/
inductive EndpointResp where
  | success (w : WeatherData) : EndpointResp
  | disabled (message : String) : EndpointResp
  | httpError (status : ℕ) (detail : String) : EndpointResp
deriving DecidableEq, Repr

/-- HTTP status of an endpoint response. -/
def respStatus : EndpointResp → ℕ
  | .success _ => 200
  | .disabled _ => 200
  | .httpError s _ => s

/-- The endpoint's own disabled message (API key not configured). -/
def disabledEnvelopeMsg : String :=
  "Weather service is not configured. Please set WEATHER_API_KEY in environment variables of your Journiv backend."

/-- The service's `get_api_key` ValueError message. -/
def notConfiguredMsg : String :=
  "Weather service is not configured. Please set WEATHER_API_KEY in environment variables."

/-- The credential-guidance message raised by the service on upstream 401
and surfaced verbatim by the endpoint. -/
def invalidKeyMsg : String :=
  "Invalid OpenWeather API key. Please verify WEATHER_API_KEY is correct, activated, and has no extra whitespace. Get your API key at: https://openweathermap.org/api"

/-- `str(e)` for the coordinate `ValueError`s (the source interpolates the
offending value; the fixed part is kept). -/
def invalidLatitudeMsg : String := "Invalid latitude (must be -90 to 90)"

/-- `str(e)` for the longitude `ValueError`. -/
def invalidLongitudeMsg : String := "Invalid longitude (must be -180 to 180)"

/-- Detail of the 503 raised for upstream failures. -/
def unavailableMsg : String :=
  "Weather service temporarily unavailable. Please try again later."

/-- Detail of the generic 500. The parse-failure path raises
`HTTPException(500, "Failed to parse weather data")` inside the `try`
block, which the `except Exception` handler catches and replaces with this
message. -/
def genericErrorMsg : String := "An error occurred while fetching weather data"

/-- The `/weather/fetch` endpoint handler: short-circuit when disabled,
call `fetch_weather`, convert its outcome per the handler's
`except` clauses. -/
def weatherEndpoint (apiKey : String) (c : Cache) (now : ℕ) (lat lon : ℚ)
    (up : Upstream) : EndpointResp × Cache :=
  if pyStrip apiKey = "" then (.disabled disabledEnvelopeMsg, c)
  else
    let r := fetchWeather apiKey c now lat lon up
    let resp : EndpointResp :=
      match r.result with
      | .ok (some w) => .success w
      | .ok Option.none => .httpError 500 genericErrorMsg
      | .error .invalidLatitude => .disabled invalidLatitudeMsg
      | .error .invalidLongitude => .disabled invalidLongitudeMsg
      | .error .notConfigured => .disabled notConfiguredMsg
      | .error .invalidApiKey => .disabled invalidKeyMsg
      | .error (.httpStatusErr code _) =>
        if code = 401 then .disabled invalidKeyMsg
        else .httpError 503 unavailableMsg
      | .error .transportErr => .httpError 503 unavailableMsg
      | .error (.pyErr _) => .httpError 500 genericErrorMsg
    (resp, r.cache)

/-!
Users, the role-bootstrap migration, and the admin invariant enforcer.
-/

/-- The user role enumeration. -/
inductive Role where
  | admin : Role
  | user : Role
deriving DecidableEq, Repr

/-- The attributes of a user relevant to the enforcer: identity, creation
timestamp, role, active flag. -/
structure User where
  id : ℕ
  created_at : ℕ
  role : Role
  is_active : Bool
deriving DecidableEq, Repr

/-- Number of users holding role admin. -/
def adminCount (us : List User) : ℕ :=
  (us.filter (fun u => u.role = Role.admin)).length

/-- The earliest-created user, first in list order among ties (the
migration's `ORDER BY created_at ASC LIMIT 1`). -/
def earliest : List User → Option User
  | [] => Option.none
  | u :: us =>
    match earliest us with
    | Option.none => some u
    | some v => if u.created_at ≤ v.created_at then some u else some v

/-- The `upgrade` of migration `abc123def456`: every user gets role
`'user'` (the column default), then the earliest-created user is promoted
to `'admin'`. -/
def migrationUpgrade (us : List User) : List User :=
  match earliest (us.map (fun u => { u with role := Role.user })) with
  | Option.none => us.map (fun u => { u with role := Role.user })
  | some e => (us.map (fun u => { u with role := Role.user })).map
      (fun u => if u.id = e.id then { u with role := Role.admin } else u)

/-- Outcome of a registration attempt. -/
inductive RegError where
  | signupDisabled : RegError
deriving DecidableEq, Repr

/-- State seen by the registration handler: the user store and the
signup-enabled policy flag. -/
structure RegState where
  users : List User
  signupEnabled : Bool

/-- Modelled from the spec: the runtime registration handler (outside the
provided sources). The very first user registered in an empty system is
assigned role admin and is allowed to bypass a disabled-signup gate;
every subsequent registration defaults to role user and is subject to the
gate. -/
def register (s : RegState) (newId t : ℕ) : Except RegError (RegState × User) :=
  if s.users.isEmpty then
    let u : User := ⟨newId, t, Role.admin, true⟩
    .ok ({ s with users := s.users ++ [u] }, u)
  else if s.signupEnabled then
    let u : User := ⟨newId, t, Role.user, true⟩
    .ok ({ s with users := s.users ++ [u] }, u)
  else
    .error .signupDisabled

/-- An admin-management mutation the enforcer guards. -/
inductive AdminOp where
  | delete (uid : ℕ) : AdminOp
  | setRole (uid : ℕ) (r : Role) : AdminOp

/-- A structured API error: HTTP status and detail message. -/
structure ApiError where
  status : ℕ
  detail : String
deriving DecidableEq, Repr

/-- Occurrence of `pat` as a contiguous sublist. -/
def occursIn (pat : List Char) : List Char → Bool
  | [] => pat.isPrefixOf []
  | c :: cs => pat.isPrefixOf (c :: cs) || occursIn pat cs

/-- True when `pat` occurs as a substring of `s`. -/
def containsStr (s pat : String) : Bool := occursIn pat.data s.data

/-- Modelled from the spec: the admin invariant enforcer (outside the
provided sources). A delete of the sole admin and a role change that would
demote the sole admin each fail with a 400 whose message contains
"last admin", evaluated against the current committed admin count; other
deletions and role changes succeed. -/
def applyOp (us : List User) (op : AdminOp) : Except ApiError (List User) :=
  match op with
  | .delete uid =>
    match us.find? (fun u => u.id = uid) with
    | Option.none => .error ⟨404, "User not found"⟩
    | some u =>
      if u.role = Role.admin ∧ adminCount us = 1 then
        .error ⟨400, "Cannot delete the last admin"⟩
      else
        .ok (us.filter (fun v => ¬(v.id = uid)))
  | .setRole uid r =>
    match us.find? (fun u => u.id = uid) with
    | Option.none => .error ⟨404, "User not found"⟩
    | some u =>
      if u.role = Role.admin ∧ r = Role.user ∧ adminCount us = 1 then
        .error ⟨400, "Cannot demote the last admin"⟩
      else
        .ok (us.map (fun v => if v.id = uid then { v with role := r } else v))

/-- A sequence of authorized admin-management operations, applied left to
right; the first failure aborts the sequence. -/
def runOps (us : List User) : List AdminOp → Except ApiError (List User)
  | [] => .ok us
  | op :: ops =>
    match applyOp us op with
    | .ok us1 => runOps us1 ops
    | .error e => .error e

/-!
Helper lemmas about the parse pipeline.
-/

/-- A `WeatherData` satisfying the pydantic schema constraints
(humidity in 0..100, non-negative wind speed). -/
def wValid (w : WeatherData) : Bool :=
  (match w.humidity with
   | Option.none => true
   | some h => decide (0 ≤ h ∧ h ≤ 100))
  && (match w.wind_speed with
      | Option.none => true
      | some s => decide (0 ≤ s))

theorem qMul_eq (a b : ℚ) : qMul a b = a * b := by
  rw [qMul, Rat.mkRat_eq_div]
  push_cast
  rw [← div_mul_div_comm, Rat.num_div_den, Rat.num_div_den]

theorem qAdd_eq (a b : ℚ) : qAdd a b = a + b := by
  have ha : ((a.den : ℚ)) ≠ 0 := Nat.cast_ne_zero.mpr a.den_nz
  have hb : ((b.den : ℚ)) ≠ 0 := Nat.cast_ne_zero.mpr b.den_nz
  rw [qAdd, Rat.mkRat_eq_div]
  conv_rhs => rw [← Rat.num_div_den a, ← Rat.num_div_den b]
  push_cast
  field_simp

theorem qSub_eq (a b : ℚ) : qSub a b = a - b := by
  have ha : ((a.den : ℚ)) ≠ 0 := Nat.cast_ne_zero.mpr a.den_nz
  have hb : ((b.den : ℚ)) ≠ 0 := Nat.cast_ne_zero.mpr b.den_nz
  rw [qSub, Rat.mkRat_eq_div]
  conv_rhs => rw [← Rat.num_div_den a, ← Rat.num_div_den b]
  push_cast
  field_simp
  ring

theorem qDivNat_eq (a : ℚ) (c : ℕ) : qDivNat a c = a / c := by
  rcases Nat.eq_zero_or_pos c with hc | hc
  · subst hc
    simp [qDivNat]
  · have hc0 : ((c : ℚ)) ≠ 0 := Nat.cast_ne_zero.mpr hc.ne'
    have ha : ((a.den : ℚ)) ≠ 0 := Nat.cast_ne_zero.mpr a.den_nz
    rw [qDivNat, Rat.mkRat_eq_div]
    conv_rhs => rw [← Rat.num_div_den a]
    push_cast
    field_simp

theorem qScale_eq (q : ℚ) (n : ℕ) : qScale q n = q * 10 ^ n := by
  have h : qScale q n = qMul q (10 ^ n) := by
    rw [qScale, qMul]
    norm_num
  rw [h, qMul_eq]

theorem pyCtoF_eq (t : ℚ) : pyCtoF t = t * 9 / 5 + 32 := by
  rw [pyCtoF, qAdd_eq, qDivNat_eq, qMul_eq]
  norm_num

theorem bind_ok_iff {α β : Type} (e : Except PyExc α) (f : α → Except PyExc β) (b : β) :
    (e >>= f) = .ok b ↔ ∃ a, e = .ok a ∧ f a = .ok b := by
  cases e <;> simp [Bind.bind, Except.bind]

theorem vOptIntRange_mem (lo hi : ℤ) (v : PyVal) (r : Option ℤ)
    (h : vOptIntRange lo hi v = .ok r) : ∀ n ∈ r, lo ≤ n ∧ n ≤ hi := by
  intro n hn
  unfold vOptIntRange at h
  split at h
  · simp_all
  · split at h <;> simp_all
  · simp_all

theorem vOptFloatGe0_mem (v : PyVal) (r : Option ℚ)
    (h : vOptFloatGe0 v = .ok r) : ∀ s ∈ r, 0 ≤ s := by
  intro s hs
  unfold vOptFloatGe0 at h
  split at h
  · simp_all
  · split at h <;> simp_all
  · simp_all

theorem mkWeatherData_ok (a b : ℚ) (cond desc hum ws pres vis icon : PyVal)
    (w : WeatherData)
    (h : mkWeatherData (.num a) (.num b) cond desc hum ws pres vis icon = .ok w) :
    w.temp_c = a ∧ w.temp_f = b ∧ wValid w = true := by
  unfold mkWeatherData at h
  simp only [bind_ok_iff] at h
  obtain ⟨tc, htc, tf, htf, c, hc, d, hd, hm, hhm, ws2, hws, p, hp, vv, hv, i, hi, hfin⟩ := h
  simp only [vFloat, Except.ok.injEq] at htc htf
  simp only [Except.ok.injEq] at hfin
  subst hfin
  refine ⟨htc.symm, htf.symm, ?_⟩
  have h1 := vOptIntRange_mem 0 100 hum hm hhm
  have h2 := vOptFloatGe0_mem ws ws2 hws
  unfold wValid
  simp only [Bool.and_eq_true]
  constructor
  · cases hm with
    | none => rfl
    | some n => simpa using h1 n rfl
  · cases ws2 with
    | none => rfl
    | some s => simpa using h2 s rfl

theorem pure_ok_iff {α : Type} (a b : α) : (pure a : Except PyExc α) = .ok b ↔ a = b := by
  constructor
  · intro h
    exact Except.ok.inj h
  · intro h
    rw [h]
    rfl

theorem pyGetD_ok (v : PyVal) (k : String) (d x : PyVal)
    (h : pyGetD v k d = .ok x) : (∃ kvs, v = PyVal.dict kvs) ∧ x = jGet v k d := by
  cases v with
  | dict kvs =>
    refine ⟨⟨kvs, rfl⟩, ?_⟩
    unfold pyGetD at h
    unfold jGet
    cases hf : kvs.find? (fun kv => kv.1 = k) with
    | none =>
      simp only [hf] at h ⊢
      exact (Except.ok.inj h).symm
    | some kv =>
      simp only [hf] at h ⊢
      exact (Except.ok.inj h).symm
  | none => exact absurd h (by simp [pyGetD])
  | num q => exact absurd h (by simp [pyGetD])
  | str s => exact absurd h (by simp [pyGetD])
  | bool b => exact absurd h (by simp [pyGetD])
  | list xs => exact absurd h (by simp [pyGetD])

theorem parse_ok_of_parseBody (data : PyVal) (w : WeatherData)
    (h : parseOpenweatherResponse data = .ok (some w)) : parseBody data = .ok (some w) := by
  unfold parseOpenweatherResponse at h
  cases hb : parseBody data with
  | ok r =>
    rw [hb] at h
    simpa using h
  | error e =>
    rw [hb] at h
    by_cases hc : e.caughtByParse <;> simp [hc] at h

theorem parseBody_some (data : PyVal) (w : WeatherData)
    (h : parseBody data = .ok (some w)) :
    ∃ t, tempOf data = some t ∧ w.temp_c = pyRound t 1
      ∧ w.temp_f = pyRound (pyCtoF t) 1 ∧ wValid w = true := by
  unfold parseBody at h
  simp only [bind_ok_iff] at h
  obtain ⟨main, hmain, wl, hwl, weather, hweather, wind, hwind, tv, htv, hrest⟩ := h
  cases hn : tv.isNone <;> rw [hn] at hrest
  case true =>
    rw [if_pos rfl] at hrest
    rw [pure_ok_iff] at hrest
    exact Option.noConfusion hrest
  case false =>
    rw [if_neg (by simp)] at hrest
    simp only [bind_ok_iff] at hrest
    obtain ⟨t, ht, cond, hcond, desc, hdesc, hum, hhum, ws, hws, pres, hpres,
      vis, hvis, icon, hicon, w2, hw2, hfin⟩ := hrest
    rw [pure_ok_iff] at hfin
    rw [Option.some.injEq] at hfin
    subst hfin
    obtain ⟨hrec1, hrec2, hrec3⟩ := mkWeatherData_ok _ _ _ _ _ _ _ _ _ _ hw2
    refine ⟨t, ?_, hrec1, hrec2, hrec3⟩
    obtain ⟨⟨kvs, hkvs⟩, hmain2⟩ := pyGetD_ok _ _ _ _ hmain
    obtain ⟨⟨mkvs, hmkvs⟩, htv2⟩ := pyGetD_ok _ _ _ _ htv
    rw [hmkvs] at htv2
    unfold tempOf
    rw [← hmain2, hmkvs]
    show tempFrom (jGet (PyVal.dict mkvs) "temp" PyVal.none) = some t
    rw [← htv2]
    unfold tempFrom
    rw [hn]
    simp [ht]

theorem ok_bind {α β : Type} (a : α) (f : α → Except PyExc β) :
    (Except.ok a >>= f) = f a := rfl

theorem pyGetD_dict (kvs : List (String × PyVal)) (k : String) (d : PyVal) :
    pyGetD (PyVal.dict kvs) k d = .ok (jGet (PyVal.dict kvs) k d) := by
  show (match kvs.find? (fun kv => kv.1 = k) with
        | some kv => (Except.ok kv.2 : Except PyExc PyVal)
        | Option.none => Except.ok d) =
      .ok (match kvs.find? (fun kv => kv.1 = k) with
        | some kv => kv.2
        | Option.none => d)
  cases kvs.find? (fun kv => kv.1 = k) <;> rfl

theorem error_bind {α β : Type} (e : PyExc) (f : α → Except PyExc β) :
    ((Except.error e : Except PyExc α) >>= f) = .error e := rfl

theorem pyIndexZero_cons (x : PyVal) (xs : List PyVal) :
    pyIndexZero (PyVal.list (x :: xs)) = .ok x := rfl

theorem mk_bind_shape (e : Except PyExc WeatherData) :
    (e >>= fun w => (pure (some w) : Except PyExc (Option WeatherData))) =
      match e with
      | .ok w => .ok (some w)
      | .error e2 => .error e2 := by
  cases e <;> rfl

theorem exOk_iff {α : Type} (e : Except PyExc α) : exOk e = true ↔ ∃ a, e = .ok a := by
  cases e <;> simp [exOk]

theorem vStr_error (v : PyVal) (e : PyExc) (h : vStr v = .error e) : e = .valueError := by
  cases v <;> simp [vStr] at h <;> exact h.symm

theorem vOptStr_error (v : PyVal) (e : PyExc) (h : vOptStr v = .error e) : e = .valueError := by
  cases v <;> simp [vOptStr] at h <;> exact h.symm

theorem vOptInt_error (v : PyVal) (e : PyExc) (h : vOptInt v = .error e) : e = .valueError := by
  cases v <;> simp [vOptInt] at h
  case num q =>
    split at h
    · cases h
    · exact (Except.error.inj h).symm
  all_goals exact h.symm

theorem vOptIntRange_error (lo hi : ℤ) (v : PyVal) (e : PyExc)
    (h : vOptIntRange lo hi v = .error e) : e = .valueError := by
  unfold vOptIntRange at h
  split at h
  · cases h
  · split at h
    · cases h
    · exact (Except.error.inj h).symm
  · rename_i e2 he2
    rw [Except.error.injEq] at h
    rw [← h]
    exact vOptInt_error v e2 he2

theorem vOptFloatGe0_error (v : PyVal) (e : PyExc) (h : vOptFloatGe0 v = .error e) :
    e = .valueError := by
  cases v <;> simp [vOptFloatGe0] at h
  case num q =>
    split at h
    · cases h
    · exact (Except.error.inj h).symm
  all_goals exact h.symm

theorem mkWeatherData_error (a b : ℚ) (cond desc hum ws pres vis icon : PyVal)
    (e : PyExc)
    (h : mkWeatherData (.num a) (.num b) cond desc hum ws pres vis icon = .error e) :
    e = .valueError := by
  unfold mkWeatherData at h
  rw [show (vFloat (PyVal.num a)) = .ok a from rfl, ok_bind] at h
  rw [show (vFloat (PyVal.num b)) = .ok b from rfl, ok_bind] at h
  cases h1 : vStr cond with
  | error e1 =>
    rw [h1, error_bind] at h
    exact (Except.error.inj h) ▸ (vStr_error _ _ h1)
  | ok c =>
  rw [h1, ok_bind] at h
  cases h2 : vOptStr desc with
  | error e2 =>
    rw [h2, error_bind] at h
    exact (Except.error.inj h) ▸ (vOptStr_error _ _ h2)
  | ok d2 =>
  rw [h2, ok_bind] at h
  cases h3 : vOptIntRange 0 100 hum with
  | error e3 =>
    rw [h3, error_bind] at h
    exact (Except.error.inj h) ▸ (vOptIntRange_error _ _ _ _ h3)
  | ok hm =>
  rw [h3, ok_bind] at h
  cases h4 : vOptFloatGe0 ws with
  | error e4 =>
    rw [h4, error_bind] at h
    exact (Except.error.inj h) ▸ (vOptFloatGe0_error _ _ h4)
  | ok w4 =>
  rw [h4, ok_bind] at h
  cases h5 : vOptInt pres with
  | error e5 =>
    rw [h5, error_bind] at h
    exact (Except.error.inj h) ▸ (vOptInt_error _ _ h5)
  | ok p5 =>
  rw [h5, ok_bind] at h
  cases h6 : vOptInt vis with
  | error e6 =>
    rw [h6, error_bind] at h
    exact (Except.error.inj h) ▸ (vOptInt_error _ _ h6)
  | ok v6 =>
  rw [h6, ok_bind] at h
  cases h7 : vOptStr icon with
  | error e7 =>
    rw [h7, error_bind] at h
    exact (Except.error.inj h) ▸ (vOptStr_error _ _ h7)
  | ok i7 =>
  rw [h7, ok_bind] at h
  cases h

theorem mkWeatherData_exOk (a b : ℚ) (cond desc hum ws pres vis icon : PyVal) :
    exOk (mkWeatherData (.num a) (.num b) cond desc hum ws pres vis icon) =
      (exOk (vStr cond) && exOk (vOptStr desc) && exOk (vOptIntRange 0 100 hum)
        && exOk (vOptFloatGe0 ws) && exOk (vOptInt pres) && exOk (vOptInt vis)
        && exOk (vOptStr icon)) := by
  unfold mkWeatherData
  cases vStr cond <;> cases vOptStr desc <;> cases vOptIntRange 0 100 hum
    <;> cases vOptFloatGe0 ws <;> cases vOptInt pres <;> cases vOptInt vis
    <;> cases vOptStr icon <;> rfl

theorem tempOf_some_lacksTemp (data : PyVal) (t : ℚ) (h : tempOf data = some t) :
    lacksTemp data = false := by
  unfold tempOf at h
  unfold lacksTemp
  cases hm : jGet data "main" (PyVal.dict []) <;> rw [hm] at h
  case dict mkvs =>
    have h2 : tempFrom (jGet (PyVal.dict mkvs) "temp" PyVal.none) = some t := h
    unfold tempFrom at h2
    by_cases hn : (jGet (PyVal.dict mkvs) "temp" PyVal.none).isNone = true
    · rw [if_pos hn] at h2
      cases h2
    · simpa using hn
  all_goals exact Option.noConfusion h

theorem fetchWeather_hit (apiKey : String) (c : Cache) (now : ℕ) (lat lon : ℚ)
    (up : Upstream) (w : WeatherData)
    (h1 : -90 ≤ lat ∧ lat ≤ 90) (h2 : -180 ≤ lon ∧ lon ≤ 180)
    (h3 : ¬(pyStrip apiKey = "")) (h4 : getFromCache c now lat lon = some w) :
    fetchWeather apiKey c now lat lon up = ⟨.ok (some w), c, 0⟩ := by
  unfold fetchWeather
  rw [if_neg (not_not_intro h1), if_neg (not_not_intro h2), if_neg h3, h4]

theorem fetchWeather_miss (apiKey : String) (c : Cache) (now : ℕ) (lat lon : ℚ)
    (up : Upstream)
    (h1 : -90 ≤ lat ∧ lat ≤ 90) (h2 : -180 ≤ lon ∧ lon ≤ 180)
    (h3 : ¬(pyStrip apiKey = "")) (h4 : getFromCache c now lat lon = Option.none) :
    fetchWeather apiKey c now lat lon up =
      match up with
      | .transport => ⟨.error .transportErr, c, 1⟩
      | .httpStatus code text =>
        if code = 401 then ⟨.error .invalidApiKey, c, 1⟩
        else ⟨.error (.httpStatusErr code text), c, 1⟩
      | .success body =>
        match parseOpenweatherResponse body with
        | .error e => ⟨.error (.pyErr e), c, 1⟩
        | .ok Option.none => ⟨.ok Option.none, c, 1⟩
        | .ok (some w) => ⟨.ok (some w), saveToCache c now lat lon w, 1⟩ := by
  unfold fetchWeather
  rw [if_neg (not_not_intro h1), if_neg (not_not_intro h2), if_neg h3, h4]

/-- Claim C9: a latitude outside [-90, 90] (or, for in-range latitude, a
longitude outside [-180, 180]) makes `fetch_weather` fail with the
corresponding coordinate `ValueError`, for every configured key and cache
state — so the validation precedes the credential check and any cache
access, and no upstream call happens; for in-range coordinates the result
is never a coordinate-validation error. -/
theorem fetchWeather_validates_coordinates_first :
    (∀ (apiKey : String) (c : Cache) (now : ℕ) (lat lon : ℚ) (up : Upstream),
      ¬(-90 ≤ lat ∧ lat ≤ 90) →
      fetchWeather apiKey c now lat lon up = ⟨.error .invalidLatitude, c, 0⟩)
    ∧ (∀ (apiKey : String) (c : Cache) (now : ℕ) (lat lon : ℚ) (up : Upstream),
      (-90 ≤ lat ∧ lat ≤ 90) → ¬(-180 ≤ lon ∧ lon ≤ 180) →
      fetchWeather apiKey c now lat lon up = ⟨.error .invalidLongitude, c, 0⟩)
    ∧ (∀ (apiKey : String) (c : Cache) (now : ℕ) (lat lon : ℚ) (up : Upstream),
      (-90 ≤ lat ∧ lat ≤ 90) → (-180 ≤ lon ∧ lon ≤ 180) →
      (fetchWeather apiKey c now lat lon up).result ≠ .error .invalidLatitude
      ∧ (fetchWeather apiKey c now lat lon up).result ≠ .error .invalidLongitude) := by
  refine ⟨?_, ?_, ?_⟩
  · intro apiKey c now lat lon up h
    unfold fetchWeather
    rw [if_pos h]
  · intro apiKey c now lat lon up h1 h2
    unfold fetchWeather
    rw [if_neg (not_not_intro h1), if_pos h2]
  · intro apiKey c now lat lon up h1 h2
    by_cases h3 : pyStrip apiKey = ""
    · have hd : fetchWeather apiKey c now lat lon up = ⟨.error .notConfigured, c, 0⟩ := by
        unfold fetchWeather
        rw [if_neg (not_not_intro h1), if_neg (not_not_intro h2), if_pos h3]
      rw [hd]
      exact ⟨by simp, by simp⟩
    · cases h4 : getFromCache c now lat lon with
      | some w =>
        rw [fetchWeather_hit apiKey c now lat lon up w h1 h2 h3 h4]
        exact ⟨by simp, by simp⟩
      | none =>
        rw [fetchWeather_miss apiKey c now lat lon up h1 h2 h3 h4]
        cases up with
        | transport => exact ⟨by simp, by simp⟩
        | httpStatus code text =>
          by_cases hc : code = 401 <;> constructor <;> simp [hc]
        | success body =>
          cases hp : parseOpenweatherResponse body with
          | error e => constructor <;> simp [hp]
          | ok r => cases r <;> constructor <;> simp [hp]

/-- Witness for C9 at concrete inputs: latitude -90.1 rejected, longitude
180.1 rejected, and a valid call is no coordinate error. -/
theorem fetchWeather_validates_coordinates_first_witness :
    fetchWeather "key" [] 0 (mkRat (-901) 10) 0 .transport =
      ⟨.error .invalidLatitude, [], 0⟩
    ∧ fetchWeather "key" [] 0 0 (mkRat 1801 10) .transport =
      ⟨.error .invalidLongitude, [], 0⟩
    ∧ (fetchWeather "" [] 0 0 0 .transport).result ≠ .error .invalidLatitude :=
  ⟨fetchWeather_validates_coordinates_first.1 "key" [] 0 _ 0 .transport (by decide),
   fetchWeather_validates_coordinates_first.2.1 "key" [] 0 0 _ .transport
     (by decide) (by decide),
   (fetchWeather_validates_coordinates_first.2.2 "" [] 0 0 0 .transport
     (by decide) (by decide)).1⟩

/-- Claim C8: an upstream 401 makes `fetch_weather` raise the distinct
credential `ValueError` (not the raw `HTTPStatusError`), with exactly one
upstream call (no retry), and the endpoint surfaces it as a 200
disabled-style response carrying the credential-guidance message. -/
theorem upstream_401_credential_error :
    ∀ (apiKey : String) (c : Cache) (now : ℕ) (lat lon : ℚ) (text : String),
      (-90 ≤ lat ∧ lat ≤ 90) → (-180 ≤ lon ∧ lon ≤ 180) →
      ¬(pyStrip apiKey = "") → getFromCache c now lat lon = Option.none →
      fetchWeather apiKey c now lat lon (.httpStatus 401 text) =
        ⟨.error .invalidApiKey, c, 1⟩
      ∧ (∀ (code : ℕ) (text2 : String),
          (FetchErr.invalidApiKey : FetchErr) ≠ .httpStatusErr code text2)
      ∧ weatherEndpoint apiKey c now lat lon (.httpStatus 401 text) =
          (.disabled invalidKeyMsg, c)
      ∧ respStatus (.disabled invalidKeyMsg) = 200
      ∧ containsStr invalidKeyMsg "API key" = true := by
  intro apiKey c now lat lon text h1 h2 h3 h4
  have hf : fetchWeather apiKey c now lat lon (.httpStatus 401 text) =
      ⟨.error .invalidApiKey, c, 1⟩ := by
    rw [fetchWeather_miss _ _ _ _ _ _ h1 h2 h3 h4]
    simp
  refine ⟨hf, ?_, ?_, rfl, by decide⟩
  · intro code text2
    simp
  · unfold weatherEndpoint
    rw [if_neg h3, hf]

/-- Witness for C8 at concrete inputs. -/
theorem upstream_401_credential_error_witness :
    fetchWeather "key" [] 0 0 0 (.httpStatus 401 "unauthorized") =
      ⟨.error .invalidApiKey, [], 1⟩
    ∧ weatherEndpoint "key" [] 0 0 0 (.httpStatus 401 "unauthorized") =
      (.disabled invalidKeyMsg, []) :=
  have h := upstream_401_credential_error "key" [] 0 0 0 "unauthorized"
    (by decide) (by decide) (by decide) (by decide)
  ⟨h.1, h.2.2.1⟩

/-- Counterexample to claim C5 as stated: on a payload whose parse fails
(here an empty JSON object, so `fetch_weather` returns no reading), the
endpoint does not produce a non-error "no data" outcome — it raises an
HTTP 500 error. -/
theorem parse_failure_surfaces_as_500 :
    parseOpenweatherResponse (.dict []) = .ok Option.none
    ∧ weatherEndpoint "key" [] 0 0 0 (.success (.dict [])) =
        (.httpError 500 genericErrorMsg, [])
    ∧ respStatus (weatherEndpoint "key" [] 0 0 0 (.success (.dict []))).1 = 500 :=
  ⟨by decide, by rfl, by decide⟩

/-- Claim C5 amended: the service level treats a parse failure as "no
data" — `fetch_weather` returns `None` without raising and without a cache
write — but the endpoint converts that into an HTTP 500 error response
rather than a non-error outcome. -/
theorem parse_failure_no_data_in_service :
    ∀ (apiKey : String) (c : Cache) (now : ℕ) (lat lon : ℚ) (body : PyVal),
      (-90 ≤ lat ∧ lat ≤ 90) → (-180 ≤ lon ∧ lon ≤ 180) →
      ¬(pyStrip apiKey = "") → getFromCache c now lat lon = Option.none →
      parseOpenweatherResponse body = .ok Option.none →
      fetchWeather apiKey c now lat lon (.success body) = ⟨.ok Option.none, c, 1⟩
      ∧ weatherEndpoint apiKey c now lat lon (.success body) =
          (.httpError 500 genericErrorMsg, c) := by
  intro apiKey c now lat lon body h1 h2 h3 h4 h5
  have hf : fetchWeather apiKey c now lat lon (.success body) =
      ⟨.ok Option.none, c, 1⟩ := by
    rw [fetchWeather_miss _ _ _ _ _ _ h1 h2 h3 h4]
    show (match parseOpenweatherResponse body with
      | .error e => (⟨.error (.pyErr e), c, 1⟩ : FetchResult)
      | .ok Option.none => ⟨.ok Option.none, c, 1⟩
      | .ok (some w) => ⟨.ok (some w), saveToCache c now lat lon w, 1⟩) =
        ⟨.ok Option.none, c, 1⟩
    rw [h5]
  refine ⟨hf, ?_⟩
  unfold weatherEndpoint
  rw [if_neg h3, hf]

/-- Witness for the amended C5 at concrete inputs. -/
theorem parse_failure_no_data_in_service_witness :
    fetchWeather "key" [] 0 0 0 (.success (.dict [])) = ⟨.ok Option.none, [], 1⟩
    ∧ weatherEndpoint "key" [] 0 0 0 (.success (.dict [])) =
      (.httpError 500 genericErrorMsg, []) :=
  parse_failure_no_data_in_service "key" [] 0 0 0 (.dict [])
    (by decide) (by decide) (by decide) (by decide) (by decide)

/-- Claim C6: for a payload whose `main.temp` is absent or null,
`fetch_weather` performs no cache write (the cache state is returned
unchanged) and never returns a reading; exactly one upstream request was
made. -/
theorem missing_temp_no_cache_write :
    ∀ (apiKey : String) (c : Cache) (now : ℕ) (lat lon : ℚ) (body : PyVal),
      (-90 ≤ lat ∧ lat ≤ 90) → (-180 ≤ lon ∧ lon ≤ 180) →
      ¬(pyStrip apiKey = "") → getFromCache c now lat lon = Option.none →
      lacksTemp body = true →
      (fetchWeather apiKey c now lat lon (.success body)).cache = c
      ∧ (fetchWeather apiKey c now lat lon (.success body)).httpCalls = 1
      ∧ ∀ w, (fetchWeather apiKey c now lat lon (.success body)).result ≠
          .ok (some w) := by
  intro apiKey c now lat lon body h1 h2 h3 h4 h5
  rw [fetchWeather_miss _ _ _ _ _ _ h1 h2 h3 h4]
  cases hp : parseOpenweatherResponse body with
  | error e =>
    refine ⟨by simp [hp], by simp [hp], ?_⟩
    intro w
    simp [hp]
  | ok r =>
    cases r with
    | none =>
      refine ⟨by simp [hp], by simp [hp], ?_⟩
      intro w
      simp [hp]
    | some w0 =>
      obtain ⟨t, ht, -, -, -⟩ := parseBody_some body w0 (parse_ok_of_parseBody body w0 hp)
      rw [tempOf_some_lacksTemp body t ht] at h5
      cases h5

/-- Witness for C6 at concrete inputs: a payload with `main.temp = null`. -/
theorem missing_temp_no_cache_write_witness :
    (fetchWeather "key" [] 0 0 0
      (.success (.dict [("main", .dict [("temp", PyVal.none)])]))).cache = []
    ∧ ∀ w, (fetchWeather "key" [] 0 0 0
        (.success (.dict [("main", .dict [("temp", PyVal.none)])]))).result ≠
        .ok (some w) :=
  have h := missing_temp_no_cache_write "key" [] 0 0 0
    (.dict [("main", .dict [("temp", PyVal.none)])])
    (by decide) (by decide) (by decide) (by decide) (by decide)
  ⟨h.1, h.2.2⟩

/-- Counterexample to claim C4 as stated: for upstream Celsius 0.04 the
stored reading is temp_c = 0.0, temp_f = 32.1, yet
round(temp_c * 9/5 + 32, 1) computed from the STORED temp_c is 32.0 — the
code derives temp_f from the unrounded upstream value, not from the stored
temp_c. -/
theorem temp_f_not_conversion_of_stored_temp_c :
    parseOpenweatherResponse (.dict [("main", .dict [("temp", .num (mkRat 1 25))])]) =
      .ok (some ⟨0, mkRat 321 10, "Unknown", Option.none, Option.none, Option.none,
        Option.none, Option.none, Option.none⟩)
    ∧ ¬((mkRat 321 10 : ℚ) = pyRound ((0 : ℚ) * 9 / 5 + 32) 1) := by
  constructor
  · decide
  · have h : ((0 : ℚ) * 9 / 5 + 32) = 32 := by norm_num
    rw [h]
    decide

/-- Claim C4 amended: for every parsed reading, temp_f equals
round(raw * 9/5 + 32, 1) where raw is the upstream (unrounded) Celsius
value, and temp_c equals round(raw, 1). -/
theorem temp_f_from_raw_celsius :
    ∀ (body : PyVal) (w : WeatherData) (t : ℚ),
      parseOpenweatherResponse body = .ok (some w) →
      tempOf body = some t →
      w.temp_c = pyRound t 1 ∧ w.temp_f = pyRound (t * 9 / 5 + 32) 1 := by
  intro body w t hp ht
  obtain ⟨t2, ht2, hc, hf, -⟩ := parseBody_some body w (parse_ok_of_parseBody body w hp)
  rw [ht] at ht2
  obtain rfl := Option.some.inj ht2
  refine ⟨hc, ?_⟩
  rw [hf, pyCtoF_eq]

/-- Witness for the amended C4 at the 0.04-Celsius payload. -/
theorem temp_f_from_raw_celsius_witness :
    (⟨0, mkRat 321 10, "Unknown", Option.none, Option.none, Option.none,
      Option.none, Option.none, Option.none⟩ : WeatherData).temp_c =
      pyRound (mkRat 1 25) 1
    ∧ (⟨0, mkRat 321 10, "Unknown", Option.none, Option.none, Option.none,
      Option.none, Option.none, Option.none⟩ : WeatherData).temp_f =
      pyRound (mkRat 1 25 * 9 / 5 + 32) 1 :=
  temp_f_from_raw_celsius (.dict [("main", .dict [("temp", .num (mkRat 1 25))])])
    _ (mkRat 1 25) (by decide) (by decide)

/-- Counterexample to claim C3 as stated: a payload carrying a numeric
main.temp but an empty weather list makes `_parse_openweather_response`
raise an uncaught IndexError (only KeyError, ValueError and TypeError are
caught) instead of returning a reading. -/
theorem parse_raises_on_empty_weather_list :
    tempOf (.dict [("main", .dict [("temp", .num 20)]), ("weather", .list [])]) =
      some 20
    ∧ parseOpenweatherResponse
        (.dict [("main", .dict [("temp", .num 20)]), ("weather", .list [])]) =
        .error .indexError := ⟨by decide, by decide⟩

/-- Claim C3 amended: for a JSON-object payload whose main.temp is a usable
numeric value, the parse raises no uncaught exception provided the
weather entry (when present) is a list whose first element is an object and
the wind entry (when present) is an object; within those shapes, missing
optional fields default independently, and when every optional field source
passes its schema validator the parse returns a reading. (As stated the
claim is false: an empty weather list raises an uncaught IndexError, and a
field failing validation turns the whole parse into None.) -/
theorem parse_total_when_shapes_ok :
    ∀ (kvs : List (String × PyVal)) (t : ℚ),
      tempOf (PyVal.dict kvs) = some t →
      weatherHeadOk (PyVal.dict kvs) = true →
      windShapeOk (PyVal.dict kvs) = true →
      (∃ r, parseOpenweatherResponse (PyVal.dict kvs) = .ok r)
      ∧ (fieldsValid (PyVal.dict kvs) = true →
          ∃ w, parseOpenweatherResponse (PyVal.dict kvs) = .ok (some w)) := by
  intro kvs t htemp hwh hwind
  obtain ⟨mkvs, hmkvs⟩ : ∃ mkvs,
      jGet (PyVal.dict kvs) "main" (PyVal.dict []) = PyVal.dict mkvs := by
    unfold tempOf at htemp
    cases hm : jGet (PyVal.dict kvs) "main" (PyVal.dict []) <;> rw [hm] at htemp
    case dict mkvs2 => exact ⟨mkvs2, rfl⟩
    all_goals exact Option.noConfusion htemp
  have htf : tempFrom (jGet (PyVal.dict mkvs) "temp" PyVal.none) = some t := by
    unfold tempOf at htemp
    rw [hmkvs] at htemp
    exact htemp
  have hnn : (jGet (PyVal.dict mkvs) "temp" PyVal.none).isNone = false := by
    by_cases hn : (jGet (PyVal.dict mkvs) "temp" PyVal.none).isNone = true
    · unfold tempFrom at htf
      rw [if_pos hn] at htf
      exact Option.noConfusion htf
    · simpa using hn
  have hnum : pyToNum (jGet (PyVal.dict mkvs) "temp" PyVal.none) = .ok t := by
    unfold tempFrom at htf
    rw [hnn] at htf
    rw [if_neg (show ¬(false = true) by simp)] at htf
    cases hpn : pyToNum (jGet (PyVal.dict mkvs) "temp" PyVal.none) <;> rw [hpn] at htf
    · exact Option.noConfusion htf
    · exact congrArg Except.ok (Option.some.inj htf)
  obtain ⟨whd, wrest, hwl⟩ : ∃ whd wrest,
      jGet (PyVal.dict kvs) "weather" (PyVal.list [PyVal.dict []]) =
        PyVal.list (PyVal.dict whd :: wrest) := by
    unfold weatherHeadOk at hwh
    cases hw : jGet (PyVal.dict kvs) "weather" (PyVal.list [PyVal.dict []]) <;>
      rw [hw] at hwh
    case list xs =>
      cases xs with
      | nil => simp at hwh
      | cons x rest =>
        cases x with
        | dict whd2 => exact ⟨whd2, rest, rfl⟩
        | none => simp at hwh
        | num q => simp at hwh
        | str s => simp at hwh
        | bool b => simp at hwh
        | list ys => simp at hwh
    all_goals simp at hwh
  obtain ⟨wikvs, hwk⟩ : ∃ wikvs,
      jGet (PyVal.dict kvs) "wind" (PyVal.dict []) = PyVal.dict wikvs := by
    unfold windShapeOk at hwind
    cases hw2 : jGet (PyVal.dict kvs) "wind" (PyVal.dict []) <;> rw [hw2] at hwind
    case dict wikvs2 => exact ⟨wikvs2, rfl⟩
    all_goals simp at hwind
  have hbody : parseBody (PyVal.dict kvs) =
      (mkWeatherData (.num (pyRound t 1)) (.num (pyRound (pyCtoF t) 1))
        (jGet (PyVal.dict whd) "main" (.str "Unknown"))
        (jGet (PyVal.dict whd) "description" .none)
        (jGet (PyVal.dict mkvs) "humidity" .none)
        (jGet (PyVal.dict wikvs) "speed" .none)
        (jGet (PyVal.dict mkvs) "pressure" .none)
        (jGet (PyVal.dict kvs) "visibility" .none)
        (jGet (PyVal.dict whd) "icon" .none)
       >>= fun w => pure (some w)) := by
    unfold parseBody
    rw [pyGetD_dict, ok_bind, hmkvs]
    rw [pyGetD_dict, ok_bind, hwl, pyIndexZero_cons, ok_bind]
    rw [pyGetD_dict, ok_bind, hwk]
    rw [pyGetD_dict, ok_bind]
    rw [hnn, if_neg (show ¬(false = true) by simp)]
    rw [hnum, ok_bind]
    rw [pyGetD_dict, ok_bind]
    rw [pyGetD_dict, ok_bind]
    rw [pyGetD_dict, ok_bind]
    rw [pyGetD_dict, ok_bind]
    rw [pyGetD_dict, ok_bind]
    rw [pyGetD_dict, ok_bind]
    rw [pyGetD_dict, ok_bind]
  constructor
  · cases hmk : mkWeatherData (.num (pyRound t 1)) (.num (pyRound (pyCtoF t) 1))
      (jGet (PyVal.dict whd) "main" (.str "Unknown"))
      (jGet (PyVal.dict whd) "description" .none)
      (jGet (PyVal.dict mkvs) "humidity" .none)
      (jGet (PyVal.dict wikvs) "speed" .none)
      (jGet (PyVal.dict mkvs) "pressure" .none)
      (jGet (PyVal.dict kvs) "visibility" .none)
      (jGet (PyVal.dict whd) "icon" .none) with
    | ok w =>
      refine ⟨some w, ?_⟩
      unfold parseOpenweatherResponse
      rw [hbody, hmk, ok_bind]
      rfl
    | error e =>
      have he : e = .valueError := mkWeatherData_error _ _ _ _ _ _ _ _ _ _ hmk
      refine ⟨Option.none, ?_⟩
      unfold parseOpenweatherResponse
      rw [hbody, hmk, error_bind, he]
      rfl
  · intro hfv
    have hwhead : weatherHead (PyVal.dict kvs) = PyVal.dict whd := by
      unfold weatherHead
      rw [hwl]
    unfold fieldsValid at hfv
    rw [hmkvs, hwhead, hwk] at hfv
    simp only [Bool.and_eq_true] at hfv
    obtain ⟨⟨⟨⟨⟨⟨h1, h2⟩, h3⟩, h4⟩, h5⟩, h6⟩, h7⟩ := hfv
    have hok : exOk (mkWeatherData (.num (pyRound t 1)) (.num (pyRound (pyCtoF t) 1))
        (jGet (PyVal.dict whd) "main" (.str "Unknown"))
        (jGet (PyVal.dict whd) "description" .none)
        (jGet (PyVal.dict mkvs) "humidity" .none)
        (jGet (PyVal.dict wikvs) "speed" .none)
        (jGet (PyVal.dict mkvs) "pressure" .none)
        (jGet (PyVal.dict kvs) "visibility" .none)
        (jGet (PyVal.dict whd) "icon" .none)) = true := by
      rw [mkWeatherData_exOk]
      rw [h1, h2, h3, h4, h5, h6, h7]
      rfl
    rw [exOk_iff] at hok
    obtain ⟨w, hw⟩ := hok
    refine ⟨w, ?_⟩
    unfold parseOpenweatherResponse
    rw [hbody, hw, ok_bind]
    rfl

/-- Witness for the amended C3 at a fully-populated payload. -/
theorem parse_total_when_shapes_ok_witness :
    ∃ w, parseOpenweatherResponse (PyVal.dict
      [("main", .dict [("temp", .num 20), ("humidity", .num 65),
          ("pressure", .num 1013)]),
       ("weather", .list [.dict [("main", .str "Clear"),
          ("description", .str "clear sky"), ("icon", .str "01d")]]),
       ("wind", .dict [("speed", .num (mkRat 7 2))]),
       ("visibility", .num 10000)]) = .ok (some w) :=
  (parse_total_when_shapes_ok _ 20 (by decide) (by decide) (by decide)).2 (by decide)

theorem weatherDataOfDict_modelDump (w : WeatherData) (hv : wValid w = true) :
    weatherDataOfDict (modelDump w) = .ok w := by
  obtain ⟨tc, tf, cond, desc, hum, ws, pres, vis, icon⟩ := w
  unfold wValid at hv
  simp only [Bool.and_eq_true] at hv
  obtain ⟨hv1, hv2⟩ := hv
  cases desc <;> cases hum <;> cases ws <;> cases pres <;> cases vis <;> cases icon <;>
    simp_all [modelDump, weatherDataOfDict, dGet, optStrVal, optIntVal, optNumVal,
      vFloat, vStr, vOptStr, vOptInt, vOptIntRange, vOptFloatGe0,
      Bind.bind, Except.bind]

theorem cacheGet_set (c : Cache) (now now2 : ℕ) (k : CacheKey) (v : PyVal) (ttl : ℕ) :
    cacheGet (cacheSet c now k v ttl) now2 k =
      if now2 ≤ now + ttl then some v else Option.none := by
  unfold cacheGet cacheSet
  rw [List.find?_cons_of_pos _ (by simp)]

theorem getFromCache_eq_of_hit (c : Cache) (now : ℕ) (lat lon : ℚ) (v : PyVal)
    (hc : cacheGet c now (getCacheKey lat lon) = some v) :
    getFromCache c now lat lon =
      match pyGetD v "result" PyVal.none with
      | .error _ => Option.none
      | .ok PyVal.none => Option.none
      | .ok r =>
        match weatherDataOfDict r with
        | .ok w => some w
        | .error _ => Option.none := by
  unfold getFromCache
  rw [hc]

theorem getFromCache_save (c : Cache) (now now2 : ℕ) (lat lon lat2 lon2 : ℚ)
    (w : WeatherData) (hv : wValid w = true)
    (hk : getCacheKey lat2 lon2 = getCacheKey lat lon)
    (ht : now2 ≤ now + CACHE_TTL_SECONDS) :
    getFromCache (saveToCache c now lat lon w) now2 lat2 lon2 = some w := by
  have hc : cacheGet (saveToCache c now lat lon w) now2 (getCacheKey lat2 lon2) =
      some (PyVal.dict [("result", modelDump w)]) := by
    unfold saveToCache
    rw [hk, cacheGet_set, if_pos ht]
  rw [getFromCache_eq_of_hit _ _ _ _ _ hc]
  show (match weatherDataOfDict (modelDump w) with
    | .ok w2 => some w2
    | .error _ => Option.none) = some w
  rw [weatherDataOfDict_modelDump w hv]

/-- Claim C10: saving a reading and reading it back from the cache under
the same rounded key round-trips to an equal reading; a cached entry whose
"result" key is missing or null is treated as a miss (None), not an
error. -/
theorem cache_roundtrip :
    (∀ (c : Cache) (now : ℕ) (lat lon : ℚ) (w : WeatherData), wValid w = true →
      getFromCache (saveToCache c now lat lon w) now lat lon = some w)
    ∧ (∀ (c : Cache) (now : ℕ) (lat lon : ℚ) (v : PyVal),
        cacheGet c now (getCacheKey lat lon) = some v →
        (jGet v "result" PyVal.none).isNone = true →
        getFromCache c now lat lon = Option.none) := by
  constructor
  · intro c now lat lon w hv
    exact getFromCache_save c now now lat lon lat lon w hv rfl (Nat.le_add_right _ _)
  · intro c now lat lon v hc hnull
    rw [getFromCache_eq_of_hit c now lat lon v hc]
    cases v with
    | dict kvs =>
      rw [pyGetD_dict]
      cases hjv : jGet (PyVal.dict kvs) "result" PyVal.none with
      | none => rfl
      | num q =>
        rw [hjv] at hnull
        exact Bool.noConfusion hnull
      | str s =>
        rw [hjv] at hnull
        exact Bool.noConfusion hnull
      | bool b =>
        rw [hjv] at hnull
        exact Bool.noConfusion hnull
      | list xs =>
        rw [hjv] at hnull
        exact Bool.noConfusion hnull
      | dict kvs2 =>
        rw [hjv] at hnull
        exact Bool.noConfusion hnull
    | none => rfl
    | num q => rfl
    | str s => rfl
    | bool b => rfl
    | list xs => rfl

/-- Witness for C10 at a concrete reading and cache state. -/
theorem cache_roundtrip_witness :
    getFromCache (saveToCache [] 0 0 0
      ⟨mkRat 37 2, mkRat 653 10, "Clear", some "clear sky", some 65,
        some (mkRat 7 2), some 1013, some 10000, some "01d"⟩) 0 0 0 =
      some ⟨mkRat 37 2, mkRat 653 10, "Clear", some "clear sky", some 65,
        some (mkRat 7 2), some 1013, some 10000, some "01d"⟩ :=
  cache_roundtrip.1 [] 0 0 0
    ⟨mkRat 37 2, mkRat 653 10, "Clear", some "clear sky", some 65,
      some (mkRat 7 2), some 1013, some 10000, some "01d"⟩ (by decide)

/-- Claim C7: a live cache entry under the rounded key makes
`fetch_weather` return the cached reading with no upstream HTTP request;
after a successful fetch stored a reading, a second fetch whose
coordinates round to the same 2-decimal bucket, within the TTL window,
returns the stored reading without an upstream call. -/
theorem cache_hit_no_upstream :
    (∀ (apiKey : String) (c : Cache) (now : ℕ) (lat lon : ℚ) (up : Upstream)
        (w : WeatherData),
      (-90 ≤ lat ∧ lat ≤ 90) → (-180 ≤ lon ∧ lon ≤ 180) →
      ¬(pyStrip apiKey = "") → getFromCache c now lat lon = some w →
      fetchWeather apiKey c now lat lon up = ⟨.ok (some w), c, 0⟩)
    ∧ (∀ (apiKey : String) (c : Cache) (now now2 : ℕ) (lat lon lat2 lon2 : ℚ)
        (body : PyVal) (up2 : Upstream) (w : WeatherData),
      (-90 ≤ lat ∧ lat ≤ 90) → (-180 ≤ lon ∧ lon ≤ 180) →
      (-90 ≤ lat2 ∧ lat2 ≤ 90) → (-180 ≤ lon2 ∧ lon2 ≤ 180) →
      ¬(pyStrip apiKey = "") →
      getFromCache c now lat lon = Option.none →
      parseOpenweatherResponse body = .ok (some w) →
      pyRound lat2 2 = pyRound lat 2 → pyRound lon2 2 = pyRound lon 2 →
      now2 ≤ now + CACHE_TTL_SECONDS →
      fetchWeather apiKey c now lat lon (.success body) =
        ⟨.ok (some w), saveToCache c now lat lon w, 1⟩
      ∧ fetchWeather apiKey (saveToCache c now lat lon w) now2 lat2 lon2 up2 =
        ⟨.ok (some w), saveToCache c now lat lon w, 0⟩) := by
  constructor
  · intro apiKey c now lat lon up w h1 h2 h3 h4
    exact fetchWeather_hit apiKey c now lat lon up w h1 h2 h3 h4
  · intro apiKey c now now2 lat lon lat2 lon2 body up2 w h1 h2 h3 h4 hk hm hp hr1 hr2 htl
    obtain ⟨t, -, -, -, hv⟩ := parseBody_some body w (parse_ok_of_parseBody body w hp)
    have hkey : getCacheKey lat2 lon2 = getCacheKey lat lon := by
      unfold getCacheKey
      rw [hr1, hr2]
    have hget2 : getFromCache (saveToCache c now lat lon w) now2 lat2 lon2 = some w :=
      getFromCache_save c now now2 lat lon lat2 lon2 w hv hkey htl
    constructor
    · rw [fetchWeather_miss _ _ _ _ _ _ h1 h2 hk hm]
      show (match parseOpenweatherResponse body with
        | .error e => (⟨.error (.pyErr e), c, 1⟩ : FetchResult)
        | .ok Option.none => ⟨.ok Option.none, c, 1⟩
        | .ok (some w2) => ⟨.ok (some w2), saveToCache c now lat lon w2, 1⟩) = _
      rw [hp]
    · exact fetchWeather_hit apiKey _ now2 lat2 lon2 up2 w h3 h4 hk hget2

/-- Witness for C7: a fetch on a cache holding a live entry returns it with
zero upstream calls. -/
theorem cache_hit_no_upstream_witness :
    fetchWeather "key" (saveToCache [] 0 0 0
        ⟨20, 68, "Clear", Option.none, Option.none, Option.none,
          Option.none, Option.none, Option.none⟩) 0 0 0 .transport =
      ⟨.ok (some ⟨20, 68, "Clear", Option.none, Option.none, Option.none,
          Option.none, Option.none, Option.none⟩),
        saveToCache [] 0 0 0
          ⟨20, 68, "Clear", Option.none, Option.none, Option.none,
            Option.none, Option.none, Option.none⟩, 0⟩ :=
  cache_hit_no_upstream.1 "key" _ 0 0 0 .transport _
    (by decide) (by decide) (by decide) (by decide)

/-!
Helper lemmas for the admin invariant enforcer and the bootstrap.
-/

theorem adminCount_cons (v : User) (vs : List User) :
    adminCount (v :: vs) = (if v.role = Role.admin then 1 else 0) + adminCount vs := by
  unfold adminCount
  rw [List.filter_cons]
  by_cases h : v.role = Role.admin
  · simp [h, Nat.add_comm]
  · simp [h]

theorem filter_ne_id_of_not_mem (vs : List User) (i : ℕ) (h : i ∉ vs.map User.id) :
    vs.filter (fun v => ¬(v.id = i)) = vs := by
  induction vs with
  | nil => rfl
  | cons v vs ih =>
    rw [List.map_cons, List.mem_cons] at h
    push_neg at h
    have h1 : ¬(v.id = i) := fun he => h.1 he.symm
    rw [List.filter_cons, if_pos (by simpa using h1), ih h.2]

theorem map_setRole_of_not_mem (vs : List User) (i : ℕ) (r : Role)
    (h : i ∉ vs.map User.id) :
    vs.map (fun v => if v.id = i then { v with role := r } else v) = vs := by
  induction vs with
  | nil => rfl
  | cons v vs ih =>
    rw [List.map_cons, List.mem_cons] at h
    push_neg at h
    have h1 : ¬(v.id = i) := fun he => h.1 he.symm
    rw [List.map_cons, if_neg h1, ih h.2]

theorem adminCount_filter_erase (us : List User) (u : User)
    (hn : (us.map User.id).Nodup) (hm : u ∈ us) :
    adminCount (us.filter (fun v => ¬(v.id = u.id))) +
      (if u.role = Role.admin then 1 else 0) = adminCount us := by
  induction us with
  | nil => cases hm
  | cons v vs ih =>
    rw [List.map_cons, List.nodup_cons] at hn
    obtain ⟨hv, hn2⟩ := hn
    rw [List.mem_cons] at hm
    rcases hm with rfl | hm
    · rw [List.filter_cons, if_neg (by simp)]
      rw [filter_ne_id_of_not_mem vs u.id hv]
      rw [adminCount_cons]
      exact Nat.add_comm _ _
    · have hvi : ¬(v.id = u.id) := fun he =>
        hv (he ▸ List.mem_map_of_mem User.id hm)
      rw [List.filter_cons, if_pos (by simpa using hvi)]
      rw [adminCount_cons, adminCount_cons, ← ih hn2 hm]
      ring

theorem adminCount_map_setRole (us : List User) (u : User) (r : Role)
    (hn : (us.map User.id).Nodup) (hm : u ∈ us) :
    adminCount (us.map (fun v => if v.id = u.id then { v with role := r } else v)) +
      (if u.role = Role.admin then 1 else 0) =
    adminCount us + (if r = Role.admin then 1 else 0) := by
  induction us with
  | nil => cases hm
  | cons v vs ih =>
    rw [List.map_cons, List.nodup_cons] at hn
    obtain ⟨hv, hn2⟩ := hn
    rw [List.mem_cons] at hm
    rcases hm with rfl | hm
    · rw [List.map_cons, if_pos rfl]
      rw [map_setRole_of_not_mem vs u.id r hv]
      rw [adminCount_cons, adminCount_cons]
      show (if r = Role.admin then 1 else 0) + adminCount vs +
          (if u.role = Role.admin then 1 else 0) =
        (if u.role = Role.admin then 1 else 0) + adminCount vs +
          (if r = Role.admin then 1 else 0)
      ring
    · have hvi : ¬(v.id = u.id) := fun he =>
        hv (he ▸ List.mem_map_of_mem User.id hm)
      rw [List.map_cons, if_neg hvi]
      rw [adminCount_cons, adminCount_cons]
      have h2 := ih hn2 hm
      omega

theorem find?_id_of_mem (us : List User) (u : User)
    (hn : (us.map User.id).Nodup) (hm : u ∈ us) :
    us.find? (fun v => v.id = u.id) = some u := by
  induction us with
  | nil => cases hm
  | cons v vs ih =>
    rw [List.map_cons, List.nodup_cons] at hn
    obtain ⟨hv, hn2⟩ := hn
    rw [List.mem_cons] at hm
    rcases hm with rfl | hm
    · rw [List.find?_cons_of_pos _ (by simp)]
    · have hvi : ¬(v.id = u.id) := fun he =>
        hv (he ▸ List.mem_map_of_mem User.id hm)
      rw [List.find?_cons_of_neg _ (by simpa using hvi)]
      exact ih hn2 hm

theorem nodup_ids_filter (us : List User) (p : User → Bool)
    (hn : (us.map User.id).Nodup) : ((us.filter p).map User.id).Nodup :=
  hn.sublist ((us.filter_sublist).map User.id)

theorem nodup_ids_setRole (us : List User) (i : ℕ) (r : Role)
    (hn : (us.map User.id).Nodup) :
    ((us.map (fun v => if v.id = i then { v with role := r } else v)).map User.id).Nodup := by
  rw [List.map_map]
  have hfn : (User.id ∘ fun v => if v.id = i then { v with role := r } else v) = User.id := by
    funext v
    by_cases h : v.id = i <;> simp [h]
  rw [hfn]
  exact hn

theorem applyOp_delete (us : List User) (uid : ℕ) :
    applyOp us (.delete uid) =
      match us.find? (fun v => v.id = uid) with
      | Option.none => .error ⟨404, "User not found"⟩
      | some u =>
        if u.role = Role.admin ∧ adminCount us = 1 then
          .error ⟨400, "Cannot delete the last admin"⟩
        else .ok (us.filter (fun v => ¬(v.id = uid))) := rfl

theorem applyOp_setRole (us : List User) (uid : ℕ) (r : Role) :
    applyOp us (.setRole uid r) =
      match us.find? (fun v => v.id = uid) with
      | Option.none => .error ⟨404, "User not found"⟩
      | some u =>
        if u.role = Role.admin ∧ r = Role.user ∧ adminCount us = 1 then
          .error ⟨400, "Cannot demote the last admin"⟩
        else .ok (us.map (fun v => if v.id = uid then { v with role := r } else v)) := rfl

theorem applyOp_preserves (us us2 : List User) (op : AdminOp)
    (hn : (us.map User.id).Nodup) (ha : 1 ≤ adminCount us)
    (hok : applyOp us op = .ok us2) :
    (us2.map User.id).Nodup ∧ 1 ≤ adminCount us2 := by
  cases op with
  | delete uid =>
    rw [applyOp_delete] at hok
    cases hf : us.find? (fun v => v.id = uid) <;> rw [hf] at hok
    case none => cases hok
    case some u =>
      have hok2 : (if u.role = Role.admin ∧ adminCount us = 1 then
          (Except.error ⟨400, "Cannot delete the last admin"⟩ : Except ApiError (List User))
        else .ok (us.filter (fun v => ¬(v.id = uid)))) = .ok us2 := hok
      split at hok2
      case isTrue => cases hok2
      case isFalse hguard =>
        rw [Except.ok.injEq] at hok2
        subst hok2
        have hmu : u ∈ us := List.mem_of_find?_eq_some hf
        have hui : u.id = uid := by simpa using List.find?_some hf
        subst hui
        refine ⟨nodup_ids_filter us _ hn, ?_⟩
        have hcount := adminCount_filter_erase us u hn hmu
        by_cases hr : u.role = Role.admin
        · have hne : adminCount us ≠ 1 := fun h1 => hguard ⟨hr, h1⟩
          rw [if_pos hr] at hcount
          omega
        · rw [if_neg hr] at hcount
          omega
  | setRole uid r =>
    rw [applyOp_setRole] at hok
    cases hf : us.find? (fun v => v.id = uid) <;> rw [hf] at hok
    case none => cases hok
    case some u =>
      have hok2 : (if u.role = Role.admin ∧ r = Role.user ∧ adminCount us = 1 then
          (Except.error ⟨400, "Cannot demote the last admin"⟩ : Except ApiError (List User))
        else .ok (us.map (fun v => if v.id = uid then { v with role := r } else v))) =
          .ok us2 := hok
      split at hok2
      case isTrue => cases hok2
      case isFalse hguard =>
        rw [Except.ok.injEq] at hok2
        subst hok2
        have hmu : u ∈ us := List.mem_of_find?_eq_some hf
        have hui : u.id = uid := by simpa using List.find?_some hf
        subst hui
        refine ⟨nodup_ids_setRole us _ r hn, ?_⟩
        have hcount := adminCount_map_setRole us u r hn hmu
        cases r with
        | admin =>
          rw [if_pos rfl] at hcount
          by_cases hu : u.role = Role.admin
          · rw [if_pos hu] at hcount
            omega
          · rw [if_neg hu] at hcount
            omega
        | user =>
          by_cases hr : u.role = Role.admin
          · have hne : adminCount us ≠ 1 := fun h1 => hguard ⟨hr, rfl, h1⟩
            rw [if_pos hr] at hcount
            simp only [if_neg (by simp : ¬(Role.user = Role.admin))] at hcount
            omega
          · rw [if_neg hr] at hcount
            simp only [if_neg (by simp : ¬(Role.user = Role.admin))] at hcount
            omega

theorem runOps_preserves (ops : List AdminOp) : ∀ (us us2 : List User),
    (us.map User.id).Nodup → 1 ≤ adminCount us → runOps us ops = .ok us2 →
    (us2.map User.id).Nodup ∧ 1 ≤ adminCount us2 := by
  induction ops with
  | nil =>
    intro us us2 hn ha h
    rw [show runOps us [] = .ok us from rfl, Except.ok.injEq] at h
    subst h
    exact ⟨hn, ha⟩
  | cons op ops ih =>
    intro us us2 hn ha h
    unfold runOps at h
    cases hap : applyOp us op <;> rw [hap] at h
    case error => cases h
    case ok us1 =>
      obtain ⟨hn1, ha1⟩ := applyOp_preserves us us1 op hn ha hap
      exact ih us1 us2 hn1 ha1 h

/-- Claim C1: over every sequence of operations the enforcer authorizes,
the set of admins never becomes empty; deleting or demoting the sole
remaining admin fails with a 400 whose message contains "last admin"
(leaving the store unchanged, no new store being produced), and the same
operations on an admin succeed when at least two admins exist. -/
theorem admin_never_empty :
    (∀ (us : List User) (ops : List AdminOp) (us2 : List User),
      (us.map User.id).Nodup → 1 ≤ adminCount us → runOps us ops = .ok us2 →
      1 ≤ adminCount us2)
    ∧ (∀ (us : List User) (u : User), (us.map User.id).Nodup → u ∈ us →
        u.role = Role.admin → adminCount us = 1 →
        (∃ e, applyOp us (.delete u.id) = .error e ∧ e.status = 400
          ∧ containsStr e.detail "last admin" = true)
        ∧ (∃ e, applyOp us (.setRole u.id Role.user) = .error e ∧ e.status = 400
          ∧ containsStr e.detail "last admin" = true))
    ∧ (∀ (us : List User) (u : User), (us.map User.id).Nodup → u ∈ us →
        u.role = Role.admin → 2 ≤ adminCount us →
        (∃ us2, applyOp us (.delete u.id) = .ok us2)
        ∧ (∃ us2, applyOp us (.setRole u.id Role.user) = .ok us2)) := by
  refine ⟨?_, ?_, ?_⟩
  · intro us ops us2 hn ha h
    exact (runOps_preserves ops us us2 hn ha h).2
  · intro us u hn hm hr h1
    have hf : us.find? (fun v => v.id = u.id) = some u := find?_id_of_mem us u hn hm
    constructor
    · refine ⟨⟨400, "Cannot delete the last admin"⟩, ?_, rfl, by decide⟩
      rw [applyOp_delete, hf]
      show (if u.role = Role.admin ∧ adminCount us = 1 then
          (Except.error ⟨400, "Cannot delete the last admin"⟩ : Except ApiError (List User))
        else .ok (us.filter (fun v => ¬(v.id = u.id)))) = _
      exact if_pos ⟨hr, h1⟩
    · refine ⟨⟨400, "Cannot demote the last admin"⟩, ?_, rfl, by decide⟩
      rw [applyOp_setRole, hf]
      show (if u.role = Role.admin ∧ Role.user = Role.user ∧ adminCount us = 1 then
          (Except.error ⟨400, "Cannot demote the last admin"⟩ : Except ApiError (List User))
        else .ok (us.map (fun v =>
          if v.id = u.id then { v with role := Role.user } else v))) = _
      exact if_pos ⟨hr, rfl, h1⟩
  · intro us u hn hm hr h2
    have hf : us.find? (fun v => v.id = u.id) = some u := find?_id_of_mem us u hn hm
    have hne : adminCount us ≠ 1 := by omega
    constructor
    · refine ⟨us.filter (fun v => ¬(v.id = u.id)), ?_⟩
      rw [applyOp_delete, hf]
      show (if u.role = Role.admin ∧ adminCount us = 1 then
          (Except.error ⟨400, "Cannot delete the last admin"⟩ : Except ApiError (List User))
        else .ok (us.filter (fun v => ¬(v.id = u.id)))) = _
      exact if_neg (fun hc => hne hc.2)
    · refine ⟨us.map (fun v => if v.id = u.id then { v with role := Role.user } else v), ?_⟩
      rw [applyOp_setRole, hf]
      show (if u.role = Role.admin ∧ Role.user = Role.user ∧ adminCount us = 1 then
          (Except.error ⟨400, "Cannot demote the last admin"⟩ : Except ApiError (List User))
        else .ok (us.map (fun v =>
          if v.id = u.id then { v with role := Role.user } else v))) = _
      exact if_neg (fun hc => hne hc.2.2)

/-- Witness for C1: with a sole admin, delete and demote fail with the
"last admin" 400; with two admins, deleting one succeeds. -/
theorem admin_never_empty_witness :
    ((∃ e, applyOp [⟨1, 0, Role.admin, true⟩] (.delete 1) = .error e
        ∧ e.status = 400 ∧ containsStr e.detail "last admin" = true)
      ∧ (∃ e, applyOp [⟨1, 0, Role.admin, true⟩] (.setRole 1 Role.user) = .error e
        ∧ e.status = 400 ∧ containsStr e.detail "last admin" = true))
    ∧ (∃ us2, applyOp [⟨1, 0, Role.admin, true⟩, ⟨2, 1, Role.admin, true⟩]
        (.delete 1) = .ok us2) :=
  ⟨admin_never_empty.2.1 [⟨1, 0, Role.admin, true⟩] ⟨1, 0, Role.admin, true⟩
      (by decide) (by decide) (by decide) (by decide),
   (admin_never_empty.2.2 [⟨1, 0, Role.admin, true⟩, ⟨2, 1, Role.admin, true⟩]
      ⟨1, 0, Role.admin, true⟩ (by decide) (by decide) (by decide) (by decide)).1⟩

theorem earliest_map_demote (us : List User) :
    earliest (us.map (fun u => { u with role := Role.user })) =
      (earliest us).map (fun u => { u with role := Role.user }) := by
  induction us with
  | nil => rfl
  | cons v vs ih =>
    rw [List.map_cons]
    unfold earliest
    rw [ih]
    cases earliest vs with
    | none => rfl
    | some w =>
      by_cases h : v.created_at ≤ w.created_at <;> simp [h]

theorem earliest_none_iff (us : List User) : earliest us = Option.none ↔ us = [] := by
  cases us with
  | nil => simp [earliest]
  | cons v vs =>
    unfold earliest
    cases earliest vs with
    | none => simp
    | some w =>
      by_cases h : v.created_at ≤ w.created_at <;> simp [h]

/-- Claim C2: registering into an empty system yields an admin (even when
signup is disabled — that branch never consults the flag); registering
into a non-empty system yields a regular user; and the migration's
bootstrap step leaves role admin exactly on the user selected by the
earliest-created-user query. -/
theorem first_user_bootstrap :
    (∀ (s : RegState) (newId t : ℕ), s.users = [] →
      ∃ u, register s newId t = .ok ({ s with users := s.users ++ [u] }, u)
        ∧ u.role = Role.admin)
    ∧ (∀ (s : RegState) (newId t : ℕ) (s2 : RegState) (u : User),
        ¬(s.users = []) → register s newId t = .ok (s2, u) → u.role = Role.user)
    ∧ (∀ (us : List User) (u : User), u ∈ migrationUpgrade us →
        (u.role = Role.admin ↔ (earliest us).map User.id = some u.id)) := by
  refine ⟨?_, ?_, ?_⟩
  · intro s newId t h
    refine ⟨⟨newId, t, Role.admin, true⟩, ?_, rfl⟩
    unfold register
    rw [if_pos (by rw [h]; rfl)]
  · intro s newId t s2 u hne hok
    unfold register at hok
    rw [if_neg (by simpa using hne)] at hok
    split at hok
    · rw [Except.ok.injEq, Prod.mk.injEq] at hok
      rw [← hok.2]
    · cases hok
  · intro us u hu
    unfold migrationUpgrade at hu
    cases hb : earliest (us.map (fun v => { v with role := Role.user })) with
    | none =>
      rw [hb] at hu
      rw [earliest_none_iff, List.map_eq_nil_iff] at hb
      subst hb
      cases hu
    | some e =>
      rw [hb] at hu
      rw [List.mem_map] at hu
      obtain ⟨v, hv, rfl⟩ := hu
      rw [List.mem_map] at hv
      obtain ⟨v0, hv0, rfl⟩ := hv
      rw [earliest_map_demote] at hb
      cases he0 : earliest us with
      | none =>
        rw [he0] at hb
        cases hb
      | some e0 =>
        rw [he0, Option.map_some'] at hb
        have hb2 : ({ e0 with role := Role.user } : User) = e := Option.some.inj hb
        have heid : e.id = e0.id := by rw [← hb2]
        rw [Option.map_some']
        by_cases hid : v0.id = e.id
        · rw [if_pos (show ({ v0 with role := Role.user } : User).id = e.id from hid)]
          constructor
          · intro _
            rw [Option.some.injEq]
            show e0.id = v0.id
            rw [← heid, ← hid]
          · intro _
            rfl
        · rw [if_neg (show ¬(({ v0 with role := Role.user } : User).id = e.id) from hid)]
          constructor
          · intro hrole
            cases hrole
          · intro habs
            rw [Option.some.injEq] at habs
            have habs2 : v0.id = e.id := by
              rw [heid, ← habs]
            exact absurd habs2 hid

/-- Witness for C2 at concrete inputs: the first registration in an empty
system with signup disabled yields an admin; a second registration yields
a regular user; the migration promotes exactly the earliest-created
user. -/
theorem first_user_bootstrap_witness :
    (∃ u, register ⟨[], false⟩ 1 5 =
        .ok ({ users := [] ++ [u], signupEnabled := false }, u)
      ∧ u.role = Role.admin)
    ∧ ((⟨2, 5, Role.admin, true⟩ : User).role = Role.admin ↔
        (earliest [⟨1, 10, Role.user, true⟩, ⟨2, 5, Role.admin, true⟩]).map User.id =
          some (⟨2, 5, Role.admin, true⟩ : User).id) :=
  ⟨first_user_bootstrap.1 ⟨[], false⟩ 1 5 rfl,
   first_user_bootstrap.2.2 [⟨1, 10, Role.user, true⟩, ⟨2, 5, Role.admin, true⟩]
     ⟨2, 5, Role.admin, true⟩ (by decide)⟩
